import Mathlib

/-!
Shallow embedding of the TurboGears 2 decoration and configuration machinery
(src/tg/decorators.py, src/tg/configuration/configurator/steps/error_pages.py,
src/tg/configuration/configurator/steps/toscawidgets2.py) together with
verification of the behavioural claims about it.

Python dictionaries are modelled as association lists with update-in-place
semantics (an existing key is overwritten, a new key is appended); Python
values that may be absent or falsy are modelled as Option, with none standing
for both an absent value and a falsy one wherever the code only tests
truthiness.
-/

namespace TG2

/-! ## Association-list model of Python dicts -/

/-- Lookup in a Python dict modelled as an association list. -/
def alistGet {κ α : Type} [DecidableEq κ] (m : List (κ × α)) (k : κ) : Option α :=
  (m.find? (fun p => decide (p.1 = k))).map (fun p => p.2)

/-- Assignment d[k] = v in a Python dict modelled as an association list:
an existing key is overwritten in place, a new key is appended at the end. -/
def alistSet {κ α : Type} [DecidableEq κ] : List (κ × α) → κ → α → List (κ × α)
  | [], k, v => [(k, v)]
  | p :: t, k, v => if p.1 = k then (k, v) :: t else p :: alistSet t k v

theorem alistGet_alistSet_self {κ α : Type} [DecidableEq κ]
    (m : List (κ × α)) (k : κ) (v : α) :
    alistGet (alistSet m k v) k = some v := by
  induction m with
  | nil => simp [alistSet, alistGet, List.find?]
  | cons p t ih =>
    by_cases hp : p.1 = k
    · simp [alistSet, hp, alistGet, List.find?]
    · simp only [alistSet, if_neg hp, alistGet, List.find?]
      have hd : (decide (p.1 = k)) = false := by simp [hp]
      simp only [hd]
      exact ih

theorem alistGet_alistSet_ne {κ α : Type} [DecidableEq κ]
    (m : List (κ × α)) (k k' : κ) (v : α) (hne : k' ≠ k) :
    alistGet (alistSet m k v) k' = alistGet m k' := by
  have hkk' : (decide (k = k')) = false := by
    simp only [decide_eq_false_iff_not]
    exact fun h => hne h.symm
  induction m with
  | nil => simp [alistSet, alistGet, List.find?, hkk']
  | cons p t ih =>
    by_cases hp : p.1 = k
    · have hpk' : (decide (p.1 = k')) = false := by
        rw [hp]; exact hkk'
      simp [alistSet, hp, alistGet, List.find?, hkk', hpk']
    · simp only [alistSet, if_neg hp, alistGet, List.find?]
      cases hd : (decide (p.1 = k')) with
      | true => simp
      | false => simpa [alistGet, hd] using ih

theorem alistSet_ne_nil {κ α : Type} [DecidableEq κ]
    (m : List (κ × α)) (k : κ) (v : α) : alistSet m k v ≠ [] := by
  cases m with
  | nil => simp [alistSet]
  | cons p t =>
    by_cases hp : p.1 = k <;> simp [alistSet, hp]

theorem alistSet_singleton {κ α : Type} [DecidableEq κ]
    (m : List (κ × α)) (k a : κ) (v b : α)
    (h : alistSet m k v = [(a, b)]) : a = k ∧ b = v := by
  cases m with
  | nil =>
    simp only [alistSet] at h
    injection h with h1 _
    injection h1 with ha hb
    exact ⟨ha.symm, hb.symm⟩
  | cons p t =>
    by_cases hp : p.1 = k
    · simp only [alistSet, if_pos hp] at h
      injection h with h1 _
      injection h1 with ha hb
      exact ⟨ha.symm, hb.symm⟩
    · simp only [alistSet, if_neg hp] at h
      injection h with _ h2
      exact absurd h2 (alistSet_ne_nil t k v)

/-! ## Python string helpers for the decoration model -/

/-- Byte-wise lexicographic comparison of character lists, as Python 2
compares byte strings. -/
def charListLe : List Char → List Char → Bool
  | [], _ => true
  | _ :: _, [] => false
  | a :: as, b :: bs =>
    if a.toNat < b.toNat then true
    else if a.toNat = b.toNat then charListLe as bs
    else false

/-- Python string comparison a <= b. -/
def pyStrLe (a b : String) : Bool := charListLe a.toList b.toList

/-- Python sorted(keys, reverse=True). -/
def sortedDesc (l : List String) : List String :=
  l.insertionSort (fun a b => pyStrLe b a = true)

theorem mem_sortedDesc (l : List String) (x : String) :
    x ∈ sortedDesc l ↔ x ∈ l :=
  (List.perm_insertionSort _ l).mem_iff

/-- Python substring membership: pat in s. -/
def hasSubstring (s pat : String) : Bool := decide (pat.toList <:+: s.toList)

/-- Python s.split(sep)[0]: everything before the first separator, the whole
string when the separator does not occur. -/
def pySplitHead (s : String) (sep : Char) : String :=
  (s.toList.takeWhile (fun c => decide (c ≠ sep))).asString

/-! ## The Decoration registry (src/tg/decorators.py, class Decoration)

The Decoration is parametric in the type F of hook callables, the type V of
validator objects and the type H of handler callables; controllers are
identified by natural numbers.  The engine triple stored per content type is
(engine, template, exclude_names). -/

/-- The (engine, template, exclude_names) triple registered per content
type. -/
structure EngineData where
  engine : Option String
  template : Option String
  exclude_names : Option (List String)
deriving DecidableEq, Repr

/-- The four hook names of the request life cycle. -/
inductive HookName where
  | before_validate
  | before_call
  | before_render
  | after_render
deriving DecidableEq, Repr

/-- The hooks dictionary created by Decoration.__init__, one list of
callables per hook name. -/
structure Hooks (F : Type) where
  before_validate : List F
  before_call : List F
  before_render : List F
  after_render : List F
deriving DecidableEq, Repr

/-- The list of callables registered for a hook name. -/
def Hooks.get {F : Type} (h : Hooks F) : HookName → List F
  | HookName.before_validate => h.before_validate
  | HookName.before_call => h.before_call
  | HookName.before_render => h.before_render
  | HookName.after_render => h.after_render

/-- list.append on the list of a given hook name. -/
def Hooks.append {F : Type} (h : Hooks F) (n : HookName) (func : F) : Hooks F :=
  match n with
  | HookName.before_validate => { h with before_validate := h.before_validate ++ [func] }
  | HookName.before_call => { h with before_call := h.before_call ++ [func] }
  | HookName.before_render => { h with before_render := h.before_render ++ [func] }
  | HookName.after_render => { h with after_render := h.after_render ++ [func] }

/-- The object registered by the validate decorator: its validators and
error_handler attributes. -/
structure ValidateDeco (V H : Type) where
  validators : Option V
  error_handler : Option H
deriving DecidableEq, Repr

/-- The per-controller metadata record created by Decoration.__init__. -/
structure Decoration (F V H : Type) where
  controller : Nat
  engines : List (String × EngineData)
  engines_keys : List String
  default_engine : Option String
  custom_engines : List (String × (String × EngineData))
  render_custom_format : Option String
  validation : Option (ValidateDeco V H)
  error_handler : Option H
  hooks : Hooks F
deriving DecidableEq, Repr

/-- Decoration.__init__: a fresh decoration for a controller. -/
def Decoration.init {F V H : Type} (controller : Nat) : Decoration F V H :=
  { controller := controller
    engines := []
    engines_keys := []
    default_engine := none
    custom_engines := []
    render_custom_format := none
    validation := none
    error_handler := none
    hooks := { before_validate := [], before_call := [], before_render := [],
               after_render := [] } }

/-- The decoration attributes of all controller functions: Python functions
are identified by number, and a function that was never decorated has no
decoration attribute. -/
abbrev DecTable (F V H : Type) := Nat → Option (Decoration F V H)

/-- Decoration.get_decoration: return func.decoration, creating and
attaching a fresh Decoration when the attribute raises. -/
def get_decoration {F V H : Type} (t : DecTable F V H) (func : Nat) :
    Decoration F V H × DecTable F V H :=
  match t func with
  | some d => (d, t)
  | none =>
    (Decoration.init func,
     fun g => if g = func then some (Decoration.init func) else t g)

/-- A registration on the decoration of one function: fetch the decoration
through get_decoration and mutate it in place. -/
def modify_decoration {F V H : Type} (t : DecTable F V H) (func : Nat)
    (upd : Decoration F V H → Decoration F V H) : DecTable F V H :=
  let r := get_decoration t func
  fun g => if g = func then some (upd r.1) else r.2 g

/-- The slice of tgl.config read by run_hooks: the optional system-wide
hooks dictionary. -/
structure TGConfig (F : Type) where
  hooks : Option (List (HookName × List F))

/-- Decoration.run_hooks: call the system-wide hooks found in
tgl.config, skipping that phase on KeyError, then the hooks registered on
the decoration; every call receives the arguments given to run_hooks.  The
result is the trace of calls in order, each callable paired with its
arguments. -/
def Decoration.run_hooks {F V H A : Type} (d : Decoration F V H)
    (cfg : TGConfig F) (hook : HookName) (args : A) : List (F × A) :=
  let syswide : List F :=
    match cfg.hooks with
    | some m =>
      match alistGet m hook with
      | some l => l
      | none => []
    | none => []
  syswide.map (fun func => (func, args)) ++
    (d.hooks.get hook).map (fun func => (func, args))

/-- Decoration.register_hook: append the function to the list of the named
hook. -/
def Decoration.register_hook {F V H : Type} (d : Decoration F V H)
    (hook_name : HookName) (func : F) : Decoration F V H :=
  { d with hooks := d.hooks.append hook_name func }

/-- Decoration.register_template_engine: store the engine triple under the
content type (*/* when none is given), set default_engine to the content
type exactly when it is the only registered engine, and keep engines_keys
reverse-sorted. -/
def Decoration.register_template_engine {F V H : Type} (d : Decoration F V H)
    (content_type engine template : Option String)
    (exclude_names : Option (List String)) : Decoration F V H :=
  let ct := content_type.getD "*/*"
  let engines := alistSet d.engines ct ⟨engine, template, exclude_names⟩
  { d with
    engines := engines
    default_engine := if engines.length = 1 then some ct else none
    engines_keys := sortedDesc (engines.map Prod.fst) }

/-- Decoration.register_custom_template_engine: store the content type and
engine triple under the custom format. -/
def Decoration.register_custom_template_engine {F V H : Type}
    (d : Decoration F V H) (custom_format : String)
    (content_type engine template : Option String)
    (exclude_names : Option (List String)) : Decoration F V H :=
  { d with
    custom_engines := alistSet d.custom_engines custom_format
      (content_type.getD "*/*", ⟨engine, template, exclude_names⟩) }

/-! ## Template engine lookup (Decoration.lookup_template_engine) -/

/-- The request attributes read by lookup_template_engine: response_type
(falsy modelled as none), the accept header, and the per-request
_render_custom_format and _override_mapping dictionaries keyed by
controller (absent attribute modelled as none). -/
structure Request where
  response_type : Option String
  accept_header : Option String
  render_custom_map : Option (List (Nat × String))
  override_mapping : Option (List (Nat × List (String × EngineData)))

/-- The response attribute read by lookup_template_engine: an optional
Content-Type header set by the controller. -/
structure Response where
  content_type_hdr : Option String

/-- The accept_types local of lookup_template_engine: the response_type
when it is truthy and registered, the accept header (default */*)
otherwise. -/
def Decoration.accept_types {F V H : Type} (d : Decoration F V H)
    (req : Request) : String :=
  match req.response_type with
  | some rt =>
    if (d.engines.map Prod.fst).contains rt then rt
    else (req.accept_header).getD "*/*"
  | none => (req.accept_header).getD "*/*"

/-- The content type chosen in the non-custom path of
lookup_template_engine before the response-header override: the default
engine when set, otherwise text/html when no engine is registered,
otherwise the best match (bm) of accept_types against engines_keys. -/
def Decoration.code_content_type {F V H : Type}
    (bm : List String → String → String) (d : Decoration F V H)
    (req : Request) : String :=
  match d.default_engine with
  | some de => de
  | none =>
    if d.engines = [] then "text/html"
    else bm d.engines_keys (d.accept_types req)

/-- The charset suffix appended at the end of lookup_template_engine for
textual content types that do not already carry one. -/
def addCharset (content_type : String) : String :=
  if !(hasSubstring content_type "charset") &&
     ("text".toList.isPrefixOf content_type.toList ||
      decide (content_type = "application/xhtml+xml") ||
      decide (content_type = "application/xml") ||
      decide (content_type = "application/json")) then
    content_type ++ "; charset=utf-8"
  else content_type

/-- Decoration.lookup_template_engine, parametric in the external
paste.util.mimeparse.best_match function bm.  The KeyError raised when an
active custom format is not among the registered custom engines is modelled
as none. -/
def Decoration.lookup_template_engine {F V H : Type}
    (bm : List String → String → String) (d : Decoration F V H)
    (req : Request) (resp : Response) : Option (String × EngineData) :=
  let render_custom_format : Option String :=
    match req.render_custom_map with
    | some m =>
      match alistGet m d.controller with
      | some fmt => some fmt
      | none => d.render_custom_format
    | none => d.render_custom_format
  match render_custom_format with
  | some fmt =>
    match alistGet d.custom_engines fmt with
    | some (content_type, ed) => some (addCharset content_type, ed)
    | none => none
  | none =>
    let content_type :=
      match resp.content_type_hdr with
      | some hdr => pySplitHead hdr ';'
      | none => d.code_content_type bm req
    let data : EngineData :=
      match req.override_mapping with
      | some m =>
        match alistGet m d.controller with
        | some om =>
          match alistGet om (pySplitHead content_type ';') with
          | some dta => dta
          | none => (alistGet d.engines content_type).getD ⟨none, none, none⟩
        | none => (alistGet d.engines content_type).getD ⟨none, none, none⟩
      | none => (alistGet d.engines content_type).getD ⟨none, none, none⟩
    some (addCharset content_type, data)

/-- The content type claim C2 describes lookup_template_engine as
selecting.  Stated from the words of the claim, to be compared with the
selection the source performs: the response_type of the request when it is
registered, otherwise the best match of the accept header (default */*)
against the registered content types; the single content type directly when
exactly one engine is registered, and text/html when none is. -/
def claimSelectedContentType {F V H : Type}
    (bm : List String → String → String) (d : Decoration F V H)
    (req : Request) : String :=
  if d.engines.length = 1 then (d.engines.map Prod.fst).headD ""
  else if d.engines = [] then "text/html"
  else
    match req.response_type with
    | some rt =>
      if (d.engines.map Prod.fst).contains rt then rt
      else bm d.engines_keys ((req.accept_header).getD "*/*")
    | none => bm d.engines_keys ((req.accept_header).getD "*/*")

/-- The consistency properties every reachable Decoration enjoys, used as
the hypothesis of the lookup claim: default_engine is the single key when
exactly one engine is registered and none otherwise, and engines_keys holds
exactly the registered content types. -/
def DecoWf {F V H : Type} (d : Decoration F V H) : Prop :=
  (∀ k v, d.engines = [(k, v)] → d.default_engine = some k) ∧
  (1 < d.engines.length → d.default_engine = none) ∧
  (d.engines = [] → d.default_engine = none) ∧
  (∀ x, x ∈ d.engines_keys ↔ x ∈ d.engines.map Prod.fst)

/-! ## The require decorator (src/tg/decorators.py, class require) -/

/-- The request environ as far as require.wrap_action reads it: the
repoze.who.identity entry, none when absent or falsy. -/
structure Environ where
  identity : Option String
deriving DecidableEq, Repr

/-- An observable event of require.wrap_action: setting the response
status, calling the denial handler, calling abort, or calling the wrapped
action. -/
inductive ReqEvent (A : Type) where
  | set_status (code : Nat)
  | call_denial_handler (reason : String)
  | abort_called (code : Nat) (reason : String)
  | call_action (args : A)
deriving DecidableEq, Repr

/-- require.wrap_action: check the predicate against the environ (a raised
NotAuthorizedError is modelled as some reason); on denial pick 403 for an
authenticated user and 401 otherwise, then either set the response status
and run the denial handler, or abort; when the predicate passes, call the
action with the original arguments.  Returns the event trace and the
returned value (none when abort raises). -/
def wrap_action {A R : Type} (predicate : Environ → Option String)
    (denial_handler : Option (String → R)) (env : Environ)
    (action : A → R) (args : A) : List (ReqEvent A) × Option R :=
  match predicate env with
  | some reason =>
    let code := if (env.identity).isSome then 403 else 401
    match denial_handler with
    | some h =>
      ([ReqEvent.set_status code, ReqEvent.call_denial_handler reason],
       some (h reason))
    | none => ([ReqEvent.abort_called code reason], none)
  | none => ([ReqEvent.call_action args], some (action args))

/-! ## The validate decorator (src/tg/decorators.py, class validate) -/

/-- validate.__init__: the validators attribute is set from form when form
is truthy and then overwritten from validators when validators is truthy;
the error_handler attribute is stored as given. -/
def validate_init {V H : Type} (validators : Option V)
    (error_handler : Option H) (form : Option V) : ValidateDeco V H :=
  { validators :=
      match validators with
      | some v => some v
      | none => form
    error_handler := error_handler }

/-- validate.__call__: set the validation attribute of the decoration of
the function and return the function itself. -/
def validate_call {F V H : Type} (vd : ValidateDeco V H) (t : DecTable F V H)
    (func : Nat) : Nat × DecTable F V H :=
  let r := get_decoration t func
  (func, fun g => if g = func then some { r.1 with validation := some vd }
                  else r.2 g)

/-! ## Sequences of register_template_engine calls -/

/-- The arguments of one register_template_engine call. -/
abbrev RegOp := Option String × Option String × Option String × Option (List String)

/-- A sequence of register_template_engine calls applied in order. -/
def applyRegOps {F V H : Type} (d : Decoration F V H) (ops : List RegOp) :
    Decoration F V H :=
  ops.foldl
    (fun acc op => acc.register_template_engine op.1 op.2.1 op.2.2.1 op.2.2.2) d

/-- The invariant of claim C10: default_engine is the single registered
content type when exactly one engine is registered and none when more are,
and engines_keys is the reverse-sorted list of registered content types. -/
def EnginesInvariant {F V H : Type} (d : Decoration F V H) : Prop :=
  (∀ k v, d.engines = [(k, v)] → d.default_engine = some k) ∧
  (1 < d.engines.length → d.default_engine = none) ∧
  d.engines_keys = sortedDesc (d.engines.map Prod.fst)

/-! ## Error pages configuration step
(src/tg/configuration/configurator/steps/error_pages.py) -/

/-- The slice of the configuration dictionary read and written by
ErrorPagesConfigurationStep. -/
structure ErrorPagesConf where
  auth_backend : Option String
  status_codes : List Int
deriving DecidableEq, Repr

/-- The defaults returned by ErrorPagesConfigurationStep.get_defaults:
errorpage.enabled and errorpage.status_codes. -/
structure ErrorPagesDefaults where
  enabled : Bool
  status_codes : List Int
deriving DecidableEq, Repr

/-- ErrorPagesConfigurationStep.get_defaults. -/
def error_pages_get_defaults : ErrorPagesDefaults :=
  { enabled := true, status_codes := [403, 404] }

/-- ErrorPagesConfigurationStep._configure_error_pages: when no auth backend
is configured and 401 is not already among the error page status codes,
append 401 to them; otherwise leave the configuration untouched. -/
def configure_error_pages (conf : ErrorPagesConf) : ErrorPagesConf :=
  if conf.auth_backend = none ∧ 401 ∉ conf.status_codes then
    { conf with status_codes := conf.status_codes ++ [401] }
  else
    conf

/-! ## ToscaWidgets2 configuration step
(src/tg/configuration/configurator/steps/toscawidgets2.py) -/

/-- The engines shared between the configured renderers and the rendering
engines preferred by ToscaWidgets2.  The source computes the intersection of
two Python sets; the iteration order of a Python set is unspecified, so the
model fixes a concrete order (configured-renderer order, first occurrence
only), which is one of the orders the source can produce. -/
def shared_engines (renderers preferred_engines : List String) : List String :=
  renderers.dedup.filter (fun r => decide (r ∈ preferred_engines))

/-- The observable outcome of wrapping the application in TwMiddleware:
the wrapped application plus the engine configuration handed to the
middleware. -/
structure TwMiddlewareApp (A : Type) where
  app : A
  default_engine : String
  preferred_rendering_engines : List String
deriving DecidableEq, Repr

/-- ToscaWidgets2ConfigurationStep._add_middleware: raise TGConfigError when
no configured renderer is supported by ToscaWidgets2, otherwise wrap the
application in TwMiddleware configured with the selected default engine. -/
def tw2_add_middleware {A : Type} (renderers preferred_engines : List String)
    (default_renderer : Option String) (app : A) :
    Except String (TwMiddlewareApp A) :=
  let shared := shared_engines renderers preferred_engines
  if shared = [] then
    Except.error ("None of the configured rendering engines is supported" ++
      "by ToscaWidgets2, unable to configure ToscaWidgets.")
  else
    match default_renderer with
    | some dr =>
      if dr ∈ shared then
        Except.ok { app := app, default_engine := dr,
                    preferred_rendering_engines := dr :: shared }
      else
        Except.ok { app := app, default_engine := shared.headD "",
                    preferred_rendering_engines := shared }
    | none =>
      Except.ok { app := app, default_engine := shared.headD "",
                  preferred_rendering_engines := shared }

/-! ## The paginate decorator (src/tg/decorators.py, class paginate) -/

/-- Python whitespace as stripped by str.strip: space, tab, newline,
carriage return, vertical tab and form feed. -/
def pySpace (c : Char) : Bool :=
  decide (c.toNat = 32) || decide (c.toNat = 9) || decide (c.toNat = 10) ||
    decide (c.toNat = 13) || decide (c.toNat = 11) || decide (c.toNat = 12)

/-- str.strip applied to the character list of a string. -/
def pyStrip (s : String) : List Char :=
  ((s.toList.dropWhile pySpace).reverse.dropWhile pySpace).reverse

/-- Value of a list of decimal digit characters. -/
def digitsToNat (l : List Char) : Nat :=
  l.foldl (fun a c => 10 * a + (c.toNat - 48)) 0

/-- Python int(s) on a string: optional surrounding whitespace, an optional
sign (codepoints 45 and 43), then one or more decimal digits; anything else
raises ValueError, modelled as none. -/
def pyParseInt (s : String) : Option Int :=
  match pyStrip s with
  | [] => none
  | c :: rest =>
    if c.toNat = 45 then
      if rest ≠ [] ∧ rest.all Char.isDigit then
        some (-(Int.ofNat (digitsToNat rest)))
      else none
    else if c.toNat = 43 then
      if rest ≠ [] ∧ rest.all Char.isDigit then
        some (Int.ofNat (digitsToNat rest))
      else none
    else
      if (c :: rest).all Char.isDigit then
        some (Int.ofNat (digitsToNat (c :: rest)))
      else none

/-- Truthiness of an optional string: absent and empty are falsy. -/
def pyTruthy (o : Option String) : Bool :=
  match o with
  | some s => decide (s ≠ "")
  | none => false

/-- Request parameters as handed to before_validate hooks. -/
abbrev Params := List (String × String)

/-- dict.pop(k, None): the popped value together with the dictionary without
the key. -/
def popParam (params : Params) (k : String) : Option String × Params :=
  (alistGet params k, params.filter (fun p => decide (p.1 ≠ k)))

/-- A Python value stored in the paginate_params dictionary: the original
string parameters, the integer items_per_page override, or None for a
missing page parameter recorded in _tg_paginators_params. -/
inductive PyVal where
  | str (v : String)
  | int (v : Int)
  | pyNone
deriving DecidableEq, Repr

/-- The Bunch stored in request.paginators for a collection name. -/
structure Paginator where
  paginate_page : Int
  paginate_items_per_page : Int
  paginate_params : List (String × PyVal)
deriving DecidableEq, Repr

/-- request.paginators: the _tg_paginators_params bookkeeping dict plus one
Paginator per collection name. -/
structure PaginatorsData where
  tg_params : List (String × Option String)
  items : List (String × Paginator)
deriving DecidableEq, Repr

/-- The request state read and written by paginate.before_validate. -/
structure PagReqState where
  paginators : Option PaginatorsData
deriving DecidableEq, Repr

/-- The attributes a paginate decorator instance stores in __init__. -/
structure PaginateDeco where
  name : String
  page_param : String
  items_per_page_param : String
  items_per_page : Int
  max_items_per_page : Int
deriving DecidableEq, Repr

/-- paginate.__init__: derive the page and items_per_page parameter names
from the collection name and the use_prefix flag. -/
def paginate_init (name : String) (usePfx : Bool)
    (items_per_page max_items_per_page : Int) : PaginateDeco :=
  let pfx := if usePfx then name ++ "_" else ""
  { name := name
    page_param := pfx ++ "page"
    items_per_page_param := pfx ++ "items_per_page"
    items_per_page := items_per_page
    max_items_per_page := max_items_per_page }

/-- paginate.before_validate: pop the page and items_per_page parameters,
normalise them, and record the resulting Paginator in request.paginators. -/
def paginate_before_validate (self : PaginateDeco) (req : PagReqState)
    (params0 : Params) : PagReqState × Params :=
  let pp := popParam params0 self.page_param
  let page_param := pp.1
  let params1 := pp.2
  let page : Int :=
    if pyTruthy page_param then
      match pyParseInt (page_param.getD "") with
      | some n => if n < 1 then 1 else n
      | none => 1
    else 1
  let pdata0 : PaginatorsData :=
    match req.paginators with
    | some d => d
    | none => { tg_params := [], items := [] }
  let pdata1 :=
    { pdata0 with tg_params := alistSet pdata0.tg_params self.page_param page_param }
  let ip := popParam params1 self.items_per_page_param
  let ipp_param := ip.1
  let params2 := ip.2
  let items_per_page : Int :=
    if pyTruthy ipp_param then
      match pyParseInt (ipp_param.getD "") with
      | some n =>
        let m := min n self.max_items_per_page
        if m < 1 then self.items_per_page else m
      | none => self.items_per_page
    else self.items_per_page
  let pparams0 : List (String × PyVal) :=
    params2.map (fun p => (p.1, PyVal.str p.2))
  let pparams1 :=
    pdata1.tg_params.foldl
      (fun acc kv =>
        alistSet acc kv.1
          (match kv.2 with
           | some s => PyVal.str s
           | none => PyVal.pyNone))
      pparams0
  let pparams2 :=
    if items_per_page ≠ self.items_per_page then
      alistSet pparams1 self.items_per_page_param (PyVal.int items_per_page)
    else pparams1
  let paginator : Paginator :=
    { paginate_page := if page = 0 then 1 else page
      paginate_items_per_page := items_per_page
      paginate_params := pparams2 }
  ({ paginators := some { pdata1 with items := alistSet pdata1.items self.name paginator } },
   params2)

end TG2

namespace TG2

/-- Claim C6: the error_pages configuration step defaults errorpage.enabled
to true and errorpage.status_codes to [403, 404], and its before-config
action appends 401 to the status codes exactly when no auth backend is
configured and 401 is not already present; in every other case the list is
unchanged, and no status code is ever removed. -/
theorem error_pages_config (conf : ErrorPagesConf) :
    error_pages_get_defaults.enabled = true ∧
    error_pages_get_defaults.status_codes = [403, 404] ∧
    (conf.auth_backend = none ∧ 401 ∉ conf.status_codes →
      (configure_error_pages conf).status_codes = conf.status_codes ++ [401]) ∧
    (¬ (conf.auth_backend = none ∧ 401 ∉ conf.status_codes) →
      configure_error_pages conf = conf) ∧
    (∀ c ∈ conf.status_codes, c ∈ (configure_error_pages conf).status_codes) := by
  refine ⟨rfl, rfl, ?_, ?_, ?_⟩
  · intro h
    simp [configure_error_pages, h.1, h.2]
  · intro h
    simp only [configure_error_pages, if_neg h]
  · intro c hc
    by_cases h : conf.auth_backend = none ∧ 401 ∉ conf.status_codes
    · simp [configure_error_pages, h.1, h.2, hc]
    · simpa [configure_error_pages, if_neg h] using hc

/-- Closed instance of error_pages_config: with no auth backend and the
default status codes, 401 is appended; with an auth backend configured the
configuration is untouched. -/
theorem error_pages_config_witness :
    (configure_error_pages ⟨none, [403, 404]⟩).status_codes = [403, 404, 401] ∧
    configure_error_pages ⟨some "sqlalchemy", [403, 404]⟩ =
      ⟨some "sqlalchemy", [403, 404]⟩ := by
  constructor
  · exact (error_pages_config ⟨none, [403, 404]⟩).2.2.1 (by decide)
  · exact (error_pages_config ⟨some "sqlalchemy", [403, 404]⟩).2.2.2.1 (by
      decide)

/-- Claim C7: _add_middleware raises TGConfigError exactly when the
configured renderers share no engine with the ones preferred by
ToscaWidgets2; otherwise the application is wrapped in TwMiddleware whose
default engine is the configured default renderer when that renderer is
shared and the first shared engine otherwise, and no wrapped application is
produced in the error case. -/
theorem tw2_add_middleware_spec {A : Type} (renderers preferred_engines : List String)
    (default_renderer : Option String) (app : A) :
    ((∃ e, tw2_add_middleware renderers preferred_engines default_renderer app =
        Except.error e) ↔ shared_engines renderers preferred_engines = []) ∧
    (∀ w, tw2_add_middleware renderers preferred_engines default_renderer app =
        Except.ok w →
      w.app = app ∧
      w.default_engine =
        (match default_renderer with
         | some dr =>
           if dr ∈ shared_engines renderers preferred_engines then dr
           else (shared_engines renderers preferred_engines).headD ""
         | none => (shared_engines renderers preferred_engines).headD "")) := by
  constructor
  · constructor
    · rintro ⟨e, he⟩
      by_contra hne
      cases hdr : default_renderer with
      | some dr =>
        by_cases hmem : dr ∈ shared_engines renderers preferred_engines
        · simp [tw2_add_middleware, if_neg hne, hdr, hmem] at he
        · simp [tw2_add_middleware, if_neg hne, hdr, hmem] at he
      | none =>
        simp [tw2_add_middleware, if_neg hne, hdr] at he
    · intro h
      refine ⟨"None of the configured rendering engines is supported" ++
        "by ToscaWidgets2, unable to configure ToscaWidgets.", ?_⟩
      simp [tw2_add_middleware, h]
  · intro w hw
    by_cases hne : shared_engines renderers preferred_engines = []
    · simp [tw2_add_middleware, hne] at hw
    · cases hdr : default_renderer with
      | some dr =>
        by_cases hmem : dr ∈ shared_engines renderers preferred_engines
        · simp only [tw2_add_middleware, if_neg hne, hdr, if_pos hmem,
            Except.ok.injEq] at hw
          subst hw
          simp [hmem]
        · simp only [tw2_add_middleware, if_neg hne, hdr, if_neg hmem,
            Except.ok.injEq] at hw
          subst hw
          simp [hmem]
      | none =>
        simp only [tw2_add_middleware, if_neg hne, hdr, Except.ok.injEq] at hw
        subst hw
        simp

/-- Closed instance of tw2_add_middleware_spec: with renderers [json, mako],
preferred engines [mako, genshi] and default renderer json, the application
is wrapped and the default engine falls back to mako, the first shared
engine. -/
theorem tw2_add_middleware_spec_witness :
    tw2_add_middleware ["json", "mako"] ["mako", "genshi", "jinja", "kajiki"]
      (some "json") (0 : Nat) =
      Except.ok ⟨0, "mako", ["mako"]⟩ ∧
    (⟨0, "mako", ["mako"]⟩ : TwMiddlewareApp Nat).default_engine = "mako" := by
  have h := (tw2_add_middleware_spec ["json", "mako"]
    ["mako", "genshi", "jinja", "kajiki"] (some "json") (0 : Nat)).2
    ⟨0, "mako", ["mako"]⟩ (by rfl)
  exact ⟨by rfl, h.2.trans (by rfl)⟩

theorem alistGet_filter_out {α : Type} (m : List (String × α)) (k : String) :
    alistGet (m.filter (fun p => decide (p.1 ≠ k))) k = none := by
  unfold alistGet
  have hf : List.find? (fun p => decide (p.1 = k))
      (List.filter (fun p => decide (p.1 ≠ k)) m) = none := by
    rw [List.find?_eq_none]
    intro x hx
    have := (List.mem_filter.mp hx).2
    simp only [decide_eq_true_eq] at this ⊢
    exact this
  rw [hf]
  rfl

theorem alistGet_filter_of_none {α : Type} (m : List (String × α))
    (q : String × α → Bool) (k : String) (h : alistGet m k = none) :
    alistGet (m.filter q) k = none := by
  unfold alistGet at h ⊢
  have hm : List.find? (fun p => decide (p.1 = k)) m = none := by
    cases hfind : List.find? (fun p => decide (p.1 = k)) m with
    | none => rfl
    | some x => rw [hfind] at h; simp at h
  have hf : List.find? (fun p => decide (p.1 = k)) (List.filter q m) = none := by
    rw [List.find?_eq_none] at hm ⊢
    intro x hx
    exact hm x (List.mem_filter.mp hx).1
  rw [hf]
  rfl

/-- Claim C8: with the default max_items_per_page of 0 a client-supplied
items_per_page request parameter can never change the page size: whatever
the parameter value, the resulting paginate_items_per_page equals the
configured items_per_page, because the supplied value is capped at
max_items_per_page and a capped result below 1 falls back to the default. -/
theorem paginate_items_per_page_capped (self : PaginateDeco)
    (req : PagReqState) (params : Params)
    (h0 : self.max_items_per_page = 0) :
    ∃ pd pag,
      (paginate_before_validate self req params).1.paginators = some pd ∧
      alistGet pd.items self.name = some pag ∧
      pag.paginate_items_per_page = self.items_per_page := by
  simp only [paginate_before_validate]
  refine ⟨_, _, rfl, alistGet_alistSet_self _ _ _, ?_⟩
  simp only
  by_cases h1 : pyTruthy (popParam (popParam params self.page_param).2
      self.items_per_page_param).1
  · simp only [if_pos h1]
    cases hp : pyParseInt (((popParam (popParam params self.page_param).2
        self.items_per_page_param).1).getD "") with
    | none => rfl
    | some n =>
      simp only [h0]
      have hlt : min n 0 < 1 := lt_of_le_of_lt (min_le_right n 0) one_pos
      simp [hlt]
  · simp [h1]

/-- Closed instance of paginate_items_per_page_capped: a huge
items_per_page parameter leaves the page size at the configured 10. -/
theorem paginate_items_per_page_capped_witness :
    (alistGet ((paginate_before_validate (paginate_init "items" false 10 0)
        ⟨none⟩ [("items_per_page", "9999")]).1.paginators.getD
          ⟨[], []⟩).items "items").map Paginator.paginate_items_per_page =
      some 10 := by
  obtain ⟨pd, pag, hpd, hpag, hval⟩ :=
    paginate_items_per_page_capped (paginate_init "items" false 10 0)
      ⟨none⟩ [("items_per_page", "9999")] (by rfl)
  rw [hpd]
  simp only [Option.getD_some]
  have hpag' : alistGet pd.items "items" = some pag := hpag
  rw [hpag']
  simp [hval, paginate_init]

/-- Claim C9: after paginate.before_validate runs, the paginator recorded
for the collection has paginate_page at least 1; a missing page parameter,
a non-integer page parameter and an integer page parameter below 1 all
yield page 1, and both the page and the items_per_page parameters are
removed from params. -/
theorem paginate_page_ge_one (self : PaginateDeco)
    (req : PagReqState) (params : Params) :
    ∃ pd pag,
      (paginate_before_validate self req params).1.paginators = some pd ∧
      alistGet pd.items self.name = some pag ∧
      1 ≤ pag.paginate_page ∧
      (alistGet params self.page_param = none → pag.paginate_page = 1) ∧
      (∀ s, alistGet params self.page_param = some s → pyParseInt s = none →
        pag.paginate_page = 1) ∧
      (∀ s n, alistGet params self.page_param = some s →
        pyParseInt s = some n → n < 1 → pag.paginate_page = 1) ∧
      alistGet (paginate_before_validate self req params).2 self.page_param = none ∧
      alistGet (paginate_before_validate self req params).2
        self.items_per_page_param = none := by
  simp only [paginate_before_validate]
  refine ⟨_, _, rfl, alistGet_alistSet_self _ _ _, ?_, ?_, ?_, ?_, ?_, ?_⟩
  · -- paginate_page is at least 1
    simp only
    by_cases h1 : pyTruthy (popParam params self.page_param).1
    · simp only [if_pos h1]
      cases hp : pyParseInt (((popParam params self.page_param).1).getD "") with
      | none => norm_num
      | some n =>
        by_cases hn : n < 1
        · simp [hn]
        · push_neg at hn
          have hlt : ¬ n < 1 := not_lt.mpr hn
          have hz : ¬ n = 0 := by omega
          simp only [if_neg hlt, if_neg hz]
          exact hn
    · simp [h1]
  · -- missing page parameter
    intro h
    have h1 : pyTruthy (popParam params self.page_param).1 = false := by
      simp only [popParam] at *
      rw [h]
      rfl
    simp [h1]
  · -- non-integer page parameter
    intro s hs hparse
    have h1 : (popParam params self.page_param).1 = some s := hs
    by_cases hse : s = ""
    · have : pyTruthy (popParam params self.page_param).1 = false := by
        rw [h1, hse]; rfl
      simp [this]
    · have : pyTruthy (popParam params self.page_param).1 = true := by
        rw [h1]; simp [pyTruthy, hse]
      simp only [this, if_pos, h1, Option.getD_some, hparse]
      norm_num
  · -- integer page parameter below 1
    intro s n hs hparse hn
    have h1 : (popParam params self.page_param).1 = some s := hs
    have hse : s ≠ "" := by
      intro he
      rw [he] at hparse
      simp [pyParseInt, pyStrip] at hparse
    have ht : pyTruthy (popParam params self.page_param).1 = true := by
      rw [h1]; simp [pyTruthy, hse]
    simp only [ht, if_pos, h1, Option.getD_some, hparse, if_pos hn]
    norm_num
  · -- the page parameter is removed
    simp only [popParam]
    exact alistGet_filter_of_none _ _ _ (alistGet_filter_out params self.page_param)
  · -- the items_per_page parameter is removed
    simp only [popParam]
    exact alistGet_filter_out _ _

/-- Closed instance of paginate_page_ge_one: page parameter 0 yields page 1
and both parameters are removed from params. -/
theorem paginate_page_ge_one_witness :
    (alistGet ((paginate_before_validate (paginate_init "items" false 10 0)
        ⟨none⟩ [("page", "0"), ("items_per_page", "5"), ("q", "x")]).1.paginators.getD
          ⟨[], []⟩).items "items").map Paginator.paginate_page = some 1 ∧
    alistGet (paginate_before_validate (paginate_init "items" false 10 0)
        ⟨none⟩ [("page", "0"), ("items_per_page", "5"), ("q", "x")]).2 "page" = none := by
  obtain ⟨pd, pag, hpd, hpag, _, _, _, hlt1, hrem, _⟩ :=
    paginate_page_ge_one (paginate_init "items" false 10 0)
      ⟨none⟩ [("page", "0"), ("items_per_page", "5"), ("q", "x")]
  have hval : pag.paginate_page = 1 := hlt1 "0" 0 (by rfl) (by decide) (by decide)
  constructor
  · rw [hpd]
    simp only [Option.getD_some]
    have hpag' : alistGet pd.items "items" = some pag := hpag
    rw [hpag']
    simp [hval]
  · exact hrem

/-- Claim C1: when the predicate raises NotAuthorizedError, wrap_action
never calls the action, the status code is 403 for an authenticated user
and 401 otherwise, a set denial handler is invoked with the reason after
the response status is set to that code, and abort is called with that code
and reason otherwise; when the predicate passes, the action is called with
the original arguments and its result returned. -/
theorem require_wrap_action {A R : Type} (predicate : Environ → Option String)
    (denial_handler : Option (String → R)) (env : Environ)
    (action : A → R) (args : A) :
    (∀ reason, predicate env = some reason →
      (∀ a, ReqEvent.call_action a ∉
        (wrap_action predicate denial_handler env action args).1) ∧
      (∀ h, denial_handler = some h →
        wrap_action predicate denial_handler env action args =
          ([ReqEvent.set_status (if (env.identity).isSome then 403 else 401),
            ReqEvent.call_denial_handler reason], some (h reason))) ∧
      (denial_handler = none →
        wrap_action predicate denial_handler env action args =
          ([ReqEvent.abort_called (if (env.identity).isSome then 403 else 401)
             reason], none))) ∧
    (predicate env = none →
      wrap_action predicate denial_handler env action args =
        ([ReqEvent.call_action args], some (action args))) := by
  constructor
  · intro reason hr
    refine ⟨?_, ?_, ?_⟩
    · intro a
      cases hd : denial_handler with
      | some h => simp [wrap_action, hr, hd]
      | none => simp [wrap_action, hr, hd]
    · intro h hd
      simp [wrap_action, hr, hd]
    · intro hd
      simp [wrap_action, hr, hd]
  · intro hr
    simp [wrap_action, hr]

/-- Closed instance of require_wrap_action: an unauthenticated denial with
a handler set sets status 401 and runs the handler; a passing predicate
calls the action. -/
theorem require_wrap_action_witness :
    wrap_action (fun e : Environ => if (e.identity).isSome then none
        else some "denied")
      (some (fun _ : String => (7 : Nat))) ⟨none⟩ (fun n : Nat => n + 1) 3 =
      ([ReqEvent.set_status 401, ReqEvent.call_denial_handler "denied"],
       some 7) ∧
    wrap_action (fun e : Environ => if (e.identity).isSome then none
        else some "denied")
      (some (fun _ : String => (7 : Nat))) ⟨some "user"⟩
      (fun n : Nat => n + 1) 3 = ([ReqEvent.call_action 3], some 4) := by
  constructor
  · exact ((require_wrap_action (fun e : Environ => if (e.identity).isSome
      then none else some "denied") (some (fun _ : String => (7 : Nat)))
      ⟨none⟩ (fun n : Nat => n + 1) 3).1 "denied" rfl).2.1 _ rfl
  · exact (require_wrap_action (fun e : Environ => if (e.identity).isSome
      then none else some "denied") (some (fun _ : String => (7 : Nat)))
      ⟨some "user"⟩ (fun n : Nat => n + 1) 3).2 rfl

/-- Claim C3: run_hooks first calls every system-wide hook from
tgl.config in list order, skipping that phase when the configuration key is
absent, then every hook registered on the decoration in registration order,
register_hook appending to the list of its hook; every call receives the
arguments given to run_hooks. -/
theorem run_hooks_order {F V H A : Type} (d : Decoration F V H)
    (cfg : TGConfig F) (hook : HookName) (args : A) :
    (∀ m l, cfg.hooks = some m → alistGet m hook = some l →
      d.run_hooks cfg hook args =
        (l ++ d.hooks.get hook).map (fun func => (func, args))) ∧
    (cfg.hooks = none →
      d.run_hooks cfg hook args =
        (d.hooks.get hook).map (fun func => (func, args))) ∧
    (∀ m, cfg.hooks = some m → alistGet m hook = none →
      d.run_hooks cfg hook args =
        (d.hooks.get hook).map (fun func => (func, args))) ∧
    (∀ e, e ∈ d.run_hooks cfg hook args → e.2 = args) ∧
    (∀ func, (d.register_hook hook func).hooks.get hook =
      d.hooks.get hook ++ [func]) ∧
    (∀ n func, n ≠ hook →
      (d.register_hook n func).hooks.get hook = d.hooks.get hook) := by
  refine ⟨?_, ?_, ?_, ?_, ?_, ?_⟩
  · intro m l hm hl
    simp [Decoration.run_hooks, hm, hl]
  · intro hm
    simp [Decoration.run_hooks, hm]
  · intro m hm hl
    simp [Decoration.run_hooks, hm, hl]
  · intro e he
    simp only [Decoration.run_hooks] at he
    rcases List.mem_append.mp he with h | h <;>
      · obtain ⟨f, _, hf⟩ := List.mem_map.mp h
        rw [← hf]
  · intro func
    cases hook <;> simp [Decoration.register_hook, Hooks.append, Hooks.get]
  · intro n func hne
    cases n <;> cases hook <;>
      simp_all [Decoration.register_hook, Hooks.append, Hooks.get]

/-- Closed instance of run_hooks_order: with one system-wide before_call
hook and two registered ones, the trace is the system hook first, then the
registered hooks in registration order, all receiving the arguments. -/
theorem run_hooks_order_witness :
    (((Decoration.init 0 : Decoration Nat Nat Nat).register_hook
        HookName.before_call 1).register_hook HookName.before_call 2).run_hooks
      ⟨some [(HookName.before_call, [10])]⟩ HookName.before_call (5 : Nat) =
      [(10, 5), (1, 5), (2, 5)] := by
  have h := (run_hooks_order (((Decoration.init 0 : Decoration Nat Nat Nat).register_hook
      HookName.before_call 1).register_hook HookName.before_call 2)
      ⟨some [(HookName.before_call, [10])]⟩ HookName.before_call (5 : Nat)).1
    [(HookName.before_call, [10])] [10] rfl (by decide)
  rw [h]
  decide

/-- Claim C4: get_decoration creates and attaches a fresh empty Decoration
on first use, returns the attached Decoration unchanged on every later
call, and decorating one function leaves the decoration of every other
function untouched. -/
theorem get_decoration_registry {F V H : Type} (t : DecTable F V H)
    (func g : Nat) :
    (t func = none →
      get_decoration t func =
        (Decoration.init func,
         fun g' => if g' = func then some (Decoration.init func) else t g') ∧
      (get_decoration t func).2 func = some (Decoration.init func)) ∧
    (∀ d, t func = some d → get_decoration t func = (d, t)) ∧
    (g ≠ func → (get_decoration t func).2 g = t g) ∧
    (∀ upd, g ≠ func → modify_decoration t func upd g = t g) ∧
    ((Decoration.init func : Decoration F V H).engines = [] ∧
     (Decoration.init func : Decoration F V H).custom_engines = [] ∧
     (Decoration.init func : Decoration F V H).default_engine = none ∧
     (Decoration.init func : Decoration F V H).validation = none ∧
     (Decoration.init func : Decoration F V H).error_handler = none ∧
     (Decoration.init func : Decoration F V H).hooks = ⟨[], [], [], []⟩) := by
  refine ⟨?_, ?_, ?_, ?_, rfl, rfl, rfl, rfl, rfl, rfl⟩
  · intro h
    constructor
    · simp [get_decoration, h]
    · simp [get_decoration, h]
  · intro d h
    simp [get_decoration, h]
  · intro hne
    cases h : t func with
    | some d => simp [get_decoration, h]
    | none => simp [get_decoration, h, hne]
  · intro upd hne
    cases h : t func with
    | some d => simp [modify_decoration, get_decoration, h, hne]
    | none => simp [modify_decoration, get_decoration, h, hne]

/-- Closed instance of get_decoration_registry: on an empty table the first
call on function 0 attaches a fresh decoration there and function 1 stays
undecorated. -/
theorem get_decoration_registry_witness :
    (get_decoration (fun _ => none : DecTable Nat Nat Nat) 0).2 0 =
      some (Decoration.init 0) ∧
    (get_decoration (fun _ => none : DecTable Nat Nat Nat) 0).2 1 = none := by
  have h := get_decoration_registry (fun _ => none : DecTable Nat Nat Nat) 0 1
  exact ⟨(h.1 rfl).2, (h.2.2.1 (by decide)).trans rfl⟩

/-- Claim C5: applying validate returns the original function and sets the
validation of its decoration to an object whose validators attribute is the
validators argument, the form argument standing in only when no validators
argument is given, and whose error_handler attribute is the given handler. -/
theorem validate_registers_validation {F V H : Type} (t : DecTable F V H)
    (func : Nat) (validators form : Option V) (error_handler : Option H) :
    (validate_call (validate_init validators error_handler form) t func).1 =
      func ∧
    (validate_call (validate_init validators error_handler form) t func).2
        func =
      some { (get_decoration t func).1 with
             validation := some (validate_init validators error_handler form) } ∧
    (∀ v, validators = some v →
      (validate_init validators error_handler form).validators = some v) ∧
    (validators = none →
      (validate_init validators error_handler form).validators = form) ∧
    (validate_init validators error_handler form).error_handler =
      error_handler := by
  refine ⟨rfl, ?_, ?_, ?_, rfl⟩
  · simp [validate_call]
  · intro v hv
    simp [validate_init, hv]
  · intro hv
    simp [validate_init, hv]

/-- Closed instance of validate_registers_validation: with both validators
and form given, the validators argument wins, and the registered validation
carries the error handler. -/
theorem validate_registers_validation_witness :
    (validate_call (validate_init (some 1) (some 3) (some 2))
        (fun _ => none : DecTable Nat Nat Nat) 0).1 = 0 ∧
    (validate_init (some 1) (some 3) (some 2) : ValidateDeco Nat Nat).validators =
      some 1 ∧
    (validate_init (some 1) (some 3) (some 2) : ValidateDeco Nat Nat).error_handler =
      some 3 := by
  have h := validate_registers_validation
    (fun _ => none : DecTable Nat Nat Nat) 0 (some 1) (some 2) (some 3)
  exact ⟨h.1, h.2.2.1 1 rfl, h.2.2.2.2⟩

theorem enginesInvariant_register {F V H : Type} (d : Decoration F V H)
    (ct engine template : Option String) (x : Option (List String)) :
    EnginesInvariant (d.register_template_engine ct engine template x) := by
  refine ⟨?_, ?_, rfl⟩
  · intro k v h
    simp only [Decoration.register_template_engine] at h ⊢
    have hs := alistSet_singleton d.engines (ct.getD "*/*") k
      ⟨engine, template, x⟩ v h
    rw [h]
    simp [hs.1]
  · intro h
    simp only [Decoration.register_template_engine] at h ⊢
    rw [if_neg]
    omega

theorem enginesInvariant_applyRegOps {F V H : Type} (d : Decoration F V H)
    (ops : List RegOp) (hd : EnginesInvariant d) :
    EnginesInvariant (applyRegOps d ops) := by
  induction ops generalizing d with
  | nil => exact hd
  | cons op rest ih => exact ih _ (enginesInvariant_register _ _ _ _ _)

/-- Claim C10: after any sequence of register_template_engine calls on a
fresh Decoration, default_engine is the single registered content type when
exactly one engine is registered and none when more are, and engines_keys
is the reverse-sorted list of the registered content types; a none content
type is stored under */*, and a later registration for a content type
replaces the earlier one. -/
theorem register_template_engine_invariant {F V H : Type} (ops : List RegOp)
    (func : Nat) (d : Decoration F V H) (ct : String)
    (e1 t1 e2 t2 : Option String) (x1 x2 : Option (List String)) :
    EnginesInvariant (applyRegOps (Decoration.init func : Decoration F V H) ops) ∧
    d.register_template_engine none e1 t1 x1 =
      d.register_template_engine (some "*/*") e1 t1 x1 ∧
    alistGet ((d.register_template_engine (some ct) e1 t1
        x1).register_template_engine (some ct) e2 t2 x2).engines ct =
      some ⟨e2, t2, x2⟩ := by
  refine ⟨?_, rfl, ?_⟩
  · refine enginesInvariant_applyRegOps _ ops ⟨?_, ?_, rfl⟩
    · intro k v h
      simp [Decoration.init] at h
    · intro h
      simp [Decoration.init] at h
  · exact alistGet_alistSet_self _ _ _

/-- Closed instance of register_template_engine_invariant: registering
text/html and then an engine with no content type leaves default_engine
none and engines_keys reverse-sorted, and re-registering text/html replaces
its engine triple. -/
theorem register_template_engine_invariant_witness :
    (applyRegOps (Decoration.init 0 : Decoration Nat Nat Nat)
      [(some "text/html", some "genshi", some "index", none),
       (none, some "json", none, some ["tmpl_context"])]).default_engine =
      none ∧
    (applyRegOps (Decoration.init 0 : Decoration Nat Nat Nat)
      [(some "text/html", some "genshi", some "index", none),
       (none, some "json", none, some ["tmpl_context"])]).engines_keys =
      ["text/html", "*/*"] ∧
    alistGet (((Decoration.init 0 : Decoration Nat Nat Nat).register_template_engine
        (some "text/html") (some "genshi") (some "index")
        none).register_template_engine (some "text/html") (some "kid")
        (some "other") none).engines "text/html" =
      some ⟨some "kid", some "other", none⟩ := by
  have h := register_template_engine_invariant (F := Nat) (V := Nat) (H := Nat)
    [(some "text/html", some "genshi", some "index", none),
     (none, some "json", none, some ["tmpl_context"])] 0 (Decoration.init 0)
    "text/html" (some "genshi") (some "index") (some "kid") (some "other")
    none none
  refine ⟨h.1.2.1 (by decide), ?_, h.2.2⟩
  rw [h.1.2.2]
  decide

theorem code_content_type_eq_claim {F V H : Type}
    (bm : List String → String → String) (d : Decoration F V H)
    (req : Request) (hwf : DecoWf d)
    (hbm : ∀ ks t, t ∈ ks → bm ks t = t) :
    d.code_content_type bm req = claimSelectedContentType bm d req := by
  rcases hengines : d.engines with _ | ⟨p, t⟩
  · -- no engine registered
    rw [Decoration.code_content_type, hwf.2.2.1 hengines]
    simp [claimSelectedContentType, hengines]
  · rcases t with _ | ⟨q, t2⟩
    · -- exactly one engine registered
      have hde : d.default_engine = some p.1 :=
        hwf.1 p.1 p.2 (by rw [hengines])
      rw [Decoration.code_content_type, hde]
      simp [claimSelectedContentType, hengines]
    · -- two or more engines registered
      have hlen : 1 < d.engines.length := by rw [hengines]; simp
      have hde : d.default_engine = none := hwf.2.1 hlen
      have hne : d.engines ≠ [] := by rw [hengines]; simp
      have hl1 : ¬ d.engines.length = 1 := by omega
      rw [Decoration.code_content_type, hde]
      simp only [if_neg hne]
      rw [claimSelectedContentType, if_neg hl1, if_neg hne]
      rw [Decoration.accept_types]
      cases hrt : req.response_type with
      | none => rfl
      | some rt =>
        cases hmem : (d.engines.map Prod.fst).contains rt with
        | true =>
          simp only [hmem, if_true]
          refine hbm _ _ ?_
          exact (hwf.2.2.2 rt).mpr (by simpa using hmem)
        | false =>
          have hcond : ¬ ((d.engines.map Prod.fst).contains rt = true) := by
            rw [hmem]
            exact Bool.false_ne_true
          change bm d.engines_keys
              (if (d.engines.map Prod.fst).contains rt = true then rt
               else req.accept_header.getD "*/*") =
            if (d.engines.map Prod.fst).contains rt = true then rt
            else bm d.engines_keys (req.accept_header.getD "*/*")
          rw [if_neg hcond, if_neg hcond]

/-- Claim C2: with no active custom format (and no response content-type
override and no per-request template override), lookup_template_engine
returns the engine data registered for the selected content type: the
response_type of the request when registered, otherwise the best match of
the accept header (default */*) against the registered content types, the
single content type directly when exactly one engine is registered, and
text/html with engine, template and exclude_names all none when no engine
is registered.  The best-match function bm is the external
paste.util.mimeparse.best_match, assumed to return an exactly matching
supported type unchanged. -/
theorem lookup_template_engine_selection {F V H : Type}
    (bm : List String → String → String) (d : Decoration F V H)
    (req : Request) (resp : Response) (hwf : DecoWf d)
    (hbm : ∀ ks t, t ∈ ks → bm ks t = t)
    (hcustom1 : d.render_custom_format = none)
    (hcustom2 : req.render_custom_map = none)
    (hresp : resp.content_type_hdr = none)
    (hover : req.override_mapping = none) :
    d.lookup_template_engine bm req resp =
      some (addCharset (claimSelectedContentType bm d req),
        (alistGet d.engines (claimSelectedContentType bm d req)).getD
          ⟨none, none, none⟩) ∧
    (d.engines = [] →
      claimSelectedContentType bm d req = "text/html" ∧
      (alistGet d.engines (claimSelectedContentType bm d req)).getD
        ⟨none, none, none⟩ = ⟨none, none, none⟩) := by
  constructor
  · rw [Decoration.lookup_template_engine]
    simp only [hcustom1, hcustom2, hresp, hover]
    rw [code_content_type_eq_claim bm d req hwf hbm]
  · intro h
    constructor
    · simp [claimSelectedContentType, h]
    · rw [h]
      simp [alistGet]

/-- The decoration used to instantiate the lookup claim: two registered
engines, no custom format. -/
def decoW : Decoration Nat Nat Nat :=
  { controller := 0
    engines := [("text/html", ⟨some "genshi", some "index", some []⟩),
                ("application/json", ⟨some "json", none, some ["tmpl_context"]⟩)]
    engines_keys := ["text/html", "application/json"]
    default_engine := none
    custom_engines := []
    render_custom_format := none
    validation := none
    error_handler := none
    hooks := ⟨[], [], [], []⟩ }

/-- Closed instance of lookup_template_engine_selection: a request whose
response_type is the registered application/json selects the json engine
and the content type gains the utf-8 charset. -/
theorem lookup_template_engine_selection_witness :
    Decoration.lookup_template_engine (fun _ t => t) decoW
      ⟨some "application/json", some "text/html", none, none⟩ ⟨none⟩ =
      some ("application/json; charset=utf-8",
        ⟨some "json", none, some ["tmpl_context"]⟩) := by
  have hwf : DecoWf decoW := by
    refine ⟨?_, fun _ => rfl, ?_, fun x => Iff.rfl⟩
    · intro k v h
      simp [decoW] at h
    · intro h
      simp [decoW] at h
  have h := (lookup_template_engine_selection (fun _ t => t) decoW
    ⟨some "application/json", some "text/html", none, none⟩ ⟨none⟩ hwf
    (fun _ _ _ => rfl) rfl rfl rfl rfl).1
  rw [h]
  decide

end TG2
